import Mathlib

/-!
Verification development for the AI study-aid backend.

The JavaScript sources are embedded shallowly: pure string manipulation is
modelled on `List Char` / `String`, JavaScript numbers used as integers are
modelled by `Nat` (scores involving division by `ℚ`), fields that may be
`undefined` become `Option`, and calls into external libraries (the OCR,
LLM and video providers, `JSON.parse`, regex matching) become explicit
oracle parameters that range over every possible outcome.  Controller
results are modelled as inductives with one constructor per HTTP outcome.
-/

/-! ### JavaScript string semantics helpers -/

/-- The ASCII fragment of the JavaScript whitespace class used by both the
regex `\s` and `String.prototype.trim` (space, tab, line feed, carriage
return, vertical tab, form feed). -/
def jsWhitespace (c : Char) : Bool :=
  c == ' ' || c == '\t' || c == '\n' || c == '\r' || c == '\x0b' || c == '\x0c'

/-- Model of `String.prototype.trim` on character lists: drop the leading
whitespace run, then the trailing one. -/
def jsTrim (l : List Char) : List Char :=
  (((l.dropWhile jsWhitespace).reverse.dropWhile jsWhitespace)).reverse

/-- `jsTrim` packaged on `String`. -/
def jsTrimStr (s : String) : String :=
  String.mk (jsTrim s.toList)

/-- Model of the JavaScript expression `x || d` for an optionally present
string `x`: `undefined` and the empty string are falsy, so both select the
default. -/
def jsOrD (x : Option String) : String → String
  | d => match x with
    | none => d
    | some s => if s = "" then d else s

/-- Model of `a || b` where both operands are optionally present strings
(used for `visionResult.structuredText || visionResult.extractedText`). -/
def jsOrS (a b : Option String) : Option String :=
  match a with
  | none => b
  | some s => if s = "" then b else some s

/-- Model of `q || d` for an optionally present numeric value, where `0`
is falsy (used for `detections[0].confidence || 0.8`). -/
def jsOrQ (x : Option ℚ) (d : ℚ) : ℚ :=
  match x with
  | none => d
  | some q => if q = 0 then d else q

/-- Truthiness of an optionally present string field, as tested by
JavaScript conditions such as `q.question && q.correctAnswer`. -/
def truthyO (x : Option String) : Bool :=
  match x with
  | none => false
  | some s => !(s == "")

/-- Core of the global regex replaces `replace(/p+/g, r)`: every maximal
run of characters satisfying `p` is collapsed to the single character `r`.
The boolean flag records whether the previous input character was part of
a run, so the recursion stays structural. -/
def collapseRunsAux (p : Char → Bool) (r : Char) : Bool → List Char → List Char
  | _, [] => []
  | inRun, c :: cs =>
    if p c then
      if inRun then collapseRunsAux p r true cs
      else r :: collapseRunsAux p r true cs
    else c :: collapseRunsAux p r false cs

/-- Model of `String.prototype.replace(/p+/g, r)` for a character class
`p` and a one-character replacement `r`. -/
def collapseRuns (p : Char → Bool) (r : Char) (l : List Char) : List Char :=
  collapseRunsAux p r false l

/-- Core of `String.prototype.split(/p+/)`: split at every maximal run of
characters satisfying `p`, keeping empty pieces at the ends exactly as the
JavaScript regex split does. -/
def splitRunsAux (p : Char → Bool) : Bool → List Char → List Char → List (List Char)
  | _, acc, [] => [acc.reverse]
  | true, acc, c :: cs =>
    if p c then splitRunsAux p true acc cs
    else splitRunsAux p false (c :: acc) cs
  | false, acc, c :: cs =>
    if p c then acc.reverse :: splitRunsAux p true [] cs
    else splitRunsAux p false (c :: acc) cs

/-- Model of `String.prototype.split(/p+/)` on a character list. -/
def jsSplitRuns (p : Char → Bool) (l : List Char) : List (List Char) :=
  splitRunsAux p false [] l

/-- Decidable substring test, modelling `String.prototype.includes`. -/
def hasSubstr (needle : List Char) : List Char → Bool
  | [] => needle.isEmpty
  | c :: cs => needle.isPrefixOf (c :: cs) || hasSubstr needle cs

/-- ASCII model of `String.prototype.toLowerCase`. -/
def jsToLower (s : String) : String :=
  String.mk (s.toList.map Char.toLower)

/-- Model of `imagePath.split('/').pop()`: the final path component. -/
def lastPathComponent (p : String) : String :=
  ((p.splitOn "/").getLast?).getD ""

/-- Model of `Math.ceil(total / limit)` on natural numbers, faithful for
`limit ≥ 1` (the only case the controllers reach, since `limit` defaults
to 10 and `parseInt` results of 0 are replaced by the default). -/
def mathCeilDiv (total limit : Nat) : Nat :=
  (total + limit - 1) / limit

/-- Model of a JavaScript `Array.prototype.map` whose callback can throw:
evaluation stops at the first exception. -/
def mapExcept (f : α → Except Unit β) : List α → Except Unit (List β)
  | [] => .ok []
  | x :: xs =>
    match f x with
    | .error e => .error e
    | .ok y =>
      match mapExcept f xs with
      | .error e => .error e
      | .ok ys => .ok (y :: ys)

/-- Outcome of one call into an external provider: the call either throws
(network failure, malformed response, quota, ...) or returns a value. -/
inductive Outcome (α : Type) where
  | err : Outcome α
  | ok : α → Outcome α
deriving DecidableEq

/-! ### Data model (models/Document.js and models/ChatHistory.js) -/

/-- The `analysis` sub-document of the Document schema: all four fields are
optional in the schema (`summary`/`explanation` plain strings, the lists
default to empty). -/
structure DocAnalysis where
  summary : Option String
  explanation : Option String
  keyPoints : List String
  concepts : List String
deriving DecidableEq

/-- One entry of `quizQuestions` in the Document schema. -/
structure QuizQuestion where
  type : String
  question : String
  options : Option (List String)
  correctAnswer : String
  explanation : String
deriving DecidableEq

/-- One entry of `youtubeVideos` in the Document schema.  The schema keeps
only these fields: in particular the `url` computed by the YouTube service
is stripped on save (mongoose strict mode), which matters for the PDF
renderer. `publishedAt` timestamps are opaque here. -/
structure VideoMeta where
  title : String
  videoId : String
  channelTitle : String
  viewCount : Nat
  publishedAt : Nat
  thumbnailUrl : Option String
deriving DecidableEq

/-- The persisted Document record (models/Document.js).  `extractedText`
is the only optional text field (`required: false`); timestamps are
naturals. -/
structure Document where
  documentId : String
  originalImagePath : String
  extractedText : Option String
  userPrompt : String
  analysis : DocAnalysis
  quizQuestions : List QuizQuestion
  youtubeVideos : List VideoMeta
  createdAt : Nat
  updatedAt : Nat
deriving DecidableEq

/-- One chat message of the ChatHistory schema. -/
structure ChatMessage where
  role : String
  content : String
  timestamp : Nat
deriving DecidableEq

/-- The persisted ChatHistory record (models/ChatHistory.js). -/
structure ChatRecord where
  chatId : String
  documentId : String
  messages : List ChatMessage
  createdAt : Nat
  updatedAt : Nat
deriving DecidableEq

/-- The `pre('save')` hook shared by both schemas: every save stamps
`updatedAt` with the current time. -/
def mongooseSave (d : Document) (saveTime : Nat) : Document :=
  { d with updatedAt := saveTime }

/-! ### OCR adapter (services/googleVisionService.js) -/

/-- Process-level configuration state of the Vision client: false when the
project id, the credentials variable or the credentials file is missing. -/
structure VisionEnv where
  isConfigured : Bool
deriving DecidableEq

/-- One element of `result.textAnnotations` as returned by the provider:
the detected text and an optionally present confidence. -/
structure Detection where
  description : String
  confidence : Option ℚ
deriving DecidableEq

/-- A word of `fullTextAnnotation`: the list of its symbol texts. -/
structure VisionWord where
  symbols : List String
deriving DecidableEq

/-- A paragraph of `fullTextAnnotation`. -/
structure VisionParagraph where
  words : List VisionWord
deriving DecidableEq

/-- A block of `fullTextAnnotation`. -/
structure VisionBlock where
  paragraphs : List VisionParagraph
deriving DecidableEq

/-- A page of `fullTextAnnotation`. -/
structure VisionPage where
  blocks : List VisionBlock
deriving DecidableEq

/-- The `fullTextAnnotation` object of a document-text detection: the page
tree plus the optionally present flat `text` field (only its truthiness is
read, to pick the confidence). -/
structure FullAnno where
  pages : List VisionPage
  text : Option String
deriving DecidableEq

/-- Result shape shared by all three OCR entry points: a plain-text result
carries `extractedText`/`rawText`, a structured result carries
`structuredText`; absent keys are `none`. -/
structure VisionResult where
  success : Bool
  extractedText : Option String
  rawText : Option String
  structuredText : Option String
  confidence : ℚ
deriving DecidableEq

/-- The fixed part of the `fallbackTextExtraction` placeholder, up to the
filename that ends the message. -/
def fallbackHeaderText : String :=
  "[OCR Service Unavailable]\n\nThis appears to be an uploaded image file. The Google Vision API is not currently configured, so automatic text extraction is not available.\n\nTo use this service properly, please:\n1. Set up a Google Cloud Project\n2. Enable the Vision API\n3. Create a service account and download the credentials JSON file\n4. Set the GOOGLE_CLOUD_PROJECT_ID and GOOGLE_APPLICATION_CREDENTIALS environment variables\n\nFor now, you can manually type the content from your image in the prompt field to get AI analysis.\n\nImage file: "

/-- The deterministic placeholder text of `fallbackTextExtraction`,
ending in the original filename. -/
def fallbackMessage (imagePath : String) : String :=
  fallbackHeaderText ++ lastPathComponent imagePath

/-- googleVisionService.fallbackTextExtraction: the degraded result used
whenever the provider is unavailable. -/
def fallbackTextExtraction (imagePath : String) : VisionResult :=
  { success := true
    extractedText := some (fallbackMessage imagePath)
    rawText := some (fallbackMessage imagePath)
    structuredText := none
    confidence := 0 }

/-- googleVisionService.processExtractedText: collapse repeated line
breaks (`replace(/\n+/g, '\n')`), collapse repeated whitespace to a single
space (`replace(/\s+/g, ' ')`), trim.  An empty input is falsy and is
returned unchanged. -/
def processExtractedText (rawText : String) : String :=
  if rawText = "" then ""
  else
    String.mk (jsTrim (collapseRuns jsWhitespace ' '
      (collapseRuns (fun c => c == '\n') '\n' rawText.toList)))

/-- googleVisionService.extractTextFromImage.  `textDetect` is the outcome
of the provider call `client.textDetection(imagePath)` (its
`textAnnotations` list).  An unconfigured client, a provider exception and
an empty detection list (which raises `No text found in the image` into
the same catch) all fall back to the placeholder. -/
def extractTextFromImage (env : VisionEnv) (textDetect : Outcome (List Detection))
    (imagePath : String) : VisionResult :=
  if env.isConfigured = false then fallbackTextExtraction imagePath
  else
    match textDetect with
    | .err => fallbackTextExtraction imagePath
    | .ok [] => fallbackTextExtraction imagePath
    | .ok (d :: _) =>
      { success := true
        extractedText := some (processExtractedText d.description)
        rawText := some d.description
        structuredText := none
        confidence := jsOrQ d.confidence (8/10) }

/-- The paragraph text assembled by `detectDocumentStructure`: each word
is the concatenation of its symbols followed by one space. -/
def paragraphText (par : VisionParagraph) : String :=
  String.join (par.words.map (fun w => String.join w.symbols ++ " "))

/-- The `structuredText` accumulation of `detectDocumentStructure`: for
every paragraph of every block of every page, the trimmed paragraph text
followed by a double line break. -/
def structuredTextOf (pages : List VisionPage) : String :=
  String.join (pages.map (fun page =>
    String.join (page.blocks.map (fun block =>
      String.join (block.paragraphs.map (fun par =>
        jsTrimStr (paragraphText par) ++ "\n\n"))))))

/-- googleVisionService.detectDocumentStructure.  `docDetect` is the
outcome of `client.documentTextDetection` (`.ok none` when the response
has no `fullTextAnnotation`); a missing annotation or a provider exception
falls back to `extractTextFromImage`. -/
def detectDocumentStructure (env : VisionEnv) (docDetect : Outcome (Option FullAnno))
    (textDetect : Outcome (List Detection)) (imagePath : String) : VisionResult :=
  if env.isConfigured = false then fallbackTextExtraction imagePath
  else
    match docDetect with
    | .err => extractTextFromImage env textDetect imagePath
    | .ok none => extractTextFromImage env textDetect imagePath
    | .ok (some anno) =>
      { success := true
        extractedText := none
        rawText := none
        structuredText := some (jsTrimStr (structuredTextOf anno.pages))
        confidence := if truthyO anno.text then 9/10 else 7/10 }

/-! ### AI-analysis adapter (services/geminiService.js) -/

/-- Process-level configuration of the Gemini client (`GEMINI_API_KEY`). -/
structure GeminiEnv where
  isConfigured : Bool
deriving DecidableEq

/-- The analysis object produced by every path of the adapter: all fields
are plain, always-present values. -/
structure GeminiAnalysis where
  summary : String
  explanation : String
  keyPoints : List String
  concepts : List String
  searchKeywords : List String
deriving DecidableEq

/-- Result of `analyzeContent`. -/
structure AnalysisResult where
  success : Bool
  analysis : GeminiAnalysis
deriving DecidableEq

/-- Result of `generateQuizQuestions`. -/
structure QuizResult where
  success : Bool
  questions : List QuizQuestion
deriving DecidableEq

/-- Result of `answerQuestion`. -/
structure AnswerResult where
  success : Bool
  answer : String
deriving DecidableEq

/-- The JSON object recovered by `JSON.parse` inside
`parseAnalysisResponse`, as far as the adapter inspects it: each field is
present (and, for the lists, an actual array) or not. -/
structure ParsedAnalysis where
  summary : Option String
  explanation : Option String
  keyPoints : Option (List String)
  concepts : Option (List String)
  searchKeywords : Option (List String)

/-- One question object recovered by `JSON.parse` inside
`parseQuizResponse`, before validation. -/
structure RawQuestion where
  type : Option String
  question : Option String
  options : Option (List String)
  correctAnswer : Option String
  explanation : Option String

/-- geminiService.parseAnalysisResponse.  `parsed` is the outcome of the
code-fence stripping, `{...}` regex match and `JSON.parse` (none when that
chain throws); `scrapeStr`/`scrapeArr` are the outcomes of the regex
scraping helpers `extractSection`/`extractArraySection` applied to a field
name.  Both branches return `success = true` with every field defaulted
individually. -/
def parseAnalysisResponse (text : String) (parsed : Option ParsedAnalysis)
    (scrapeStr : String → Option String)
    (scrapeArr : String → Option (List String)) : AnalysisResult :=
  match parsed with
  | some p =>
    { success := true
      analysis :=
        { summary := jsOrD p.summary "Content analysis completed."
          explanation := jsOrD p.explanation "Analysis provided based on the uploaded content."
          keyPoints := p.keyPoints.getD ["Analysis completed successfully"]
          concepts := p.concepts.getD ["Study material analysis"]
          searchKeywords := p.searchKeywords.getD ["study", "education", "learning"] } }
  | none =>
    { success := true
      analysis :=
        { summary := jsOrD (scrapeStr "summary") "AI analysis completed based on your uploaded content."
          explanation := jsOrD (scrapeStr "explanation") (text.take 500 ++ "...")
          keyPoints := (scrapeArr "keyPoints").getD
            ["Content has been analyzed", "Key information extracted", "Study material processed"]
          concepts := (scrapeArr "concepts").getD ["Study Material", "Educational Content"]
          searchKeywords := (scrapeArr "searchKeywords").getD
            ["study", "education", "learning", "tutorial"] } }

/-- geminiService.fallbackAnalysis: the deterministic stub built from
word and sentence counts of the extracted text. -/
def fallbackAnalysis (extractedText userPrompt : String) : AnalysisResult :=
  let wordCount := (jsSplitRuns jsWhitespace extractedText.toList).length
  let sentences := (jsSplitRuns (fun c => c == '.' || c == '!' || c == '?') extractedText.toList).filter
    (fun s => !(jsTrim s).isEmpty)
  let firstSentences := String.intercalate ". " ((sentences.take 3).map String.mk) ++ "."
  { success := true
    analysis :=
      { summary := "This document contains approximately " ++ toString wordCount ++
          " words. " ++ firstSentences
        explanation := "This appears to be study material related to: " ++ userPrompt ++
          ". The content covers various topics that would benefit from AI analysis. Please configure the GEMINI_API_KEY to get detailed AI-powered analysis."
        keyPoints :=
          ["Content extracted from uploaded image",
           "Document contains " ++ toString wordCount ++ " words",
           "AI analysis requires Gemini API configuration",
           "Manual review recommended for detailed understanding"]
        concepts := ["Study Material", "Content Analysis", "Educational Content"]
        searchKeywords := ["study", "education", "learning", "tutorial", "explanation"] } }

/-- geminiService.analyzeContent.  `providerText` is the outcome of the
`generateContent` call; any throw falls back to `fallbackAnalysis`. -/
def analyzeContent (env : GeminiEnv) (providerText : Outcome String)
    (parsed : Option ParsedAnalysis) (scrapeStr : String → Option String)
    (scrapeArr : String → Option (List String))
    (extractedText userPrompt : String) : AnalysisResult :=
  if env.isConfigured = false then fallbackAnalysis extractedText userPrompt
  else
    match providerText with
    | .err => fallbackAnalysis extractedText userPrompt
    | .ok t => parseAnalysisResponse t parsed scrapeStr scrapeArr

/-- The fixed question list of the catch branch of `parseQuizResponse`. -/
def parseQuizCatchQuestions : List QuizQuestion :=
  [{ type := "short_answer"
     question := "What are the main topics covered in this study material?"
     options := none
     correctAnswer := "Based on the uploaded content, identify and explain the key topics and concepts."
     explanation := "This question helps review the overall content and main themes." },
   { type := "flashcard"
     question := "Key Concept Review"
     options := none
     correctAnswer := "Review and memorize the most important points from your study material"
     explanation := "Use this to test your memory of crucial information." },
   { type := "mcq"
     question := "Which of these best describes your study material?"
     options := some ["Educational content requiring analysis", "Random text",
       "Non-academic material", "Empty document"]
     correctAnswer := "Educational content requiring analysis"
     explanation := "Your uploaded material appears to contain educational content suitable for study." }]

/-- geminiService.parseQuizResponse: on a parsed JSON object, keep the
questions whose `question`, `correctAnswer` and `type` are all truthy and
default missing explanations; on a parse failure return the fixed
fallback questions.  Both branches return `success = true`. -/
def parseQuizResponse (parsed : Option (List RawQuestion)) : QuizResult :=
  match parsed with
  | some qs =>
    { success := true
      questions := (qs.filter (fun q =>
          truthyO q.question && truthyO q.correctAnswer && truthyO q.type)).map (fun q =>
        { type := q.type.getD ""
          question := q.question.getD ""
          options := q.options
          correctAnswer := q.correctAnswer.getD ""
          explanation := jsOrD q.explanation "No explanation provided" }) }
  | none => { success := true, questions := parseQuizCatchQuestions }

/-- geminiService.fallbackQuizGeneration: the deterministic stub quiz
derived from the user prompt. -/
def fallbackQuizGeneration (userPrompt : String) : QuizResult :=
  { success := true
    questions :=
      [{ type := "short_answer"
         question := "What are the main topics covered in this study material?"
         options := none
         correctAnswer := "Based on the uploaded content and the user request: " ++ userPrompt
         explanation := "This question helps identify key themes and concepts from the material." },
       { type := "flashcard"
         question := "Key Concept Review"
         options := none
         correctAnswer := "Review the main points from your uploaded study material"
         explanation := "Use this flashcard to test your memory of important concepts." },
       { type := "mcq"
         question := "What type of analysis was requested for this material?"
         options := some [userPrompt, "Mathematical calculation", "Language translation",
           "Image editing"]
         correctAnswer := userPrompt
         explanation := "This question relates to your specific request for content analysis." }]}

/-- geminiService.generateQuizQuestions. -/
def generateQuizQuestions (env : GeminiEnv) (providerText : Outcome String)
    (parsed : Option (List RawQuestion)) (userPrompt : String) : QuizResult :=
  if env.isConfigured = false then fallbackQuizGeneration userPrompt
  else
    match providerText with
    | .err => fallbackQuizGeneration userPrompt
    | .ok _ => parseQuizResponse parsed

/-- geminiService.answerQuestion: unconfigured and throwing provider calls
are both absorbed into fixed apology texts with `success = true`. -/
def answerQuestion (env : GeminiEnv) (providerText : Outcome String) : AnswerResult :=
  if env.isConfigured = false then
    { success := true
      answer := "I apologize, but the AI analysis service is not currently configured. Please set up the GEMINI_API_KEY environment variable to enable AI-powered chat functionality." }
  else
    match providerText with
    | .err =>
      { success := true
        answer := "I\x27m sorry, I\x27m having trouble processing your question right now. Please try again or rephrase your question." }
    | .ok t => { success := true, answer := jsTrimStr t }

/-! ### Video-search adapter (services/youtubeService.js) -/

/-- One item of the search response (`snippet` plus `id.videoId`). -/
structure SearchItem where
  videoId : String
  title : String
  channelTitle : String
  description : String
  publishedAt : Nat
  thumbnailUrl : Option String
deriving DecidableEq

/-- One item of the statistics lookup used by `searchVideos`: the id and
the parsed view count. -/
structure StatItem where
  id : String
  viewCount : Nat
deriving DecidableEq

/-- The video object assembled by `searchVideos` after joining search
results with statistics. -/
structure JoinedVideo where
  title : String
  videoId : String
  channelTitle : String
  viewCount : Nat
  publishedAt : Nat
  thumbnailUrl : Option String
  description : String
  url : String
  embedUrl : String
deriving DecidableEq

/-- Result of a plain video search. -/
structure SearchResult where
  success : Bool
  videos : List JoinedVideo
deriving DecidableEq

/-- The join step of `searchVideos`: look every search item up in the
statistics response by id, defaulting a missing entry to a view count of
0, and attach the derived URLs. -/
def joinStats (items : List SearchItem) (stats : List StatItem) : List JoinedVideo :=
  items.map (fun v =>
    { title := v.title
      videoId := v.videoId
      channelTitle := v.channelTitle
      viewCount := ((stats.find? (fun s => s.id == v.videoId)).map StatItem.viewCount).getD 0
      publishedAt := v.publishedAt
      thumbnailUrl := v.thumbnailUrl
      description := v.description
      url := "https://www.youtube.com/watch?v=" ++ v.videoId
      embedUrl := "https://www.youtube.com/embed/" ++ v.videoId })

/-- The descending view-count order used by the comparator
`(a, b) => b.viewCount - a.viewCount`. -/
def viewDesc (a b : JoinedVideo) : Prop :=
  b.viewCount ≤ a.viewCount

instance : DecidableRel viewDesc := fun _ _ => Nat.decLe _ _

instance : IsTotal JoinedVideo viewDesc :=
  ⟨fun a b => Nat.le_total b.viewCount a.viewCount⟩

instance : IsTrans JoinedVideo viewDesc :=
  ⟨fun _ _ _ h h2 => Nat.le_trans h2 h⟩

/-- youtubeService.searchVideos, success path: an empty search response
returns no videos; otherwise the joined list is sorted by view count
descending.  The sort models `Array.prototype.sort` (stable since
ES2019). -/
def searchVideos (items : List SearchItem) (stats : List StatItem) : SearchResult :=
  if items.isEmpty then { success := true, videos := [] }
  else { success := true, videos := List.insertionSort viewDesc (joinStats items stats) }

/-- The processed video object of `getEducationalVideos`.  The `duration`
string produced by `parseDuration` is carried through uninterpreted as the
raw ISO duration, since no claim reads it. -/
structure EduVideo where
  title : String
  videoId : String
  channelTitle : String
  viewCount : Nat
  likeCount : Nat
  publishedAt : Nat
  thumbnailUrl : Option String
  description : String
  duration : String
  url : String
  embedUrl : String
deriving DecidableEq

/-- One item of the statistics lookup used by `getEducationalVideos`
(`statistics` plus `contentDetails.duration`). -/
structure EduStatItem where
  id : String
  viewCount : Option Nat
  likeCount : Option Nat
  duration : String
deriving DecidableEq

/-- Result of an educational video search. -/
structure EduSearchResult where
  success : Bool
  videos : List EduVideo
deriving DecidableEq

/-- The fixed educational indicator list filtered over
title/channel/description. -/
def educationalIndicators : List String :=
  ["tutorial", "lesson", "explained", "learn", "education",
   "academy", "university", "school", "course", "guide"]

/-- The filter step of `getEducationalVideos`: keep an item when any
indicator occurs in the lower-cased title, channel title or
description. -/
def isEducational (v : SearchItem) : Bool :=
  educationalIndicators.any (fun ind =>
    hasSubstr ind.toList (jsToLower v.title).toList ||
    hasSubstr ind.toList (jsToLower v.channelTitle).toList ||
    hasSubstr ind.toList (jsToLower v.description).toList)

/-- The join step of `getEducationalVideos`: statistics default to 0 via
`parseInt(... || '0')`, the description is cut to 150 characters. -/
def joinEduStats (items : List SearchItem) (stats : List EduStatItem) : List EduVideo :=
  items.map (fun v =>
    let st := stats.find? (fun s => s.id == v.videoId)
    { title := v.title
      videoId := v.videoId
      channelTitle := v.channelTitle
      viewCount := (st.bind EduStatItem.viewCount).getD 0
      likeCount := (st.bind EduStatItem.likeCount).getD 0
      publishedAt := v.publishedAt
      thumbnailUrl := v.thumbnailUrl
      description := v.description.take 150
      duration := (st.map EduStatItem.duration).getD ""
      url := "https://www.youtube.com/watch?v=" ++ v.videoId
      embedUrl := "https://www.youtube.com/embed/" ++ v.videoId })

/-- The fixed title keyword list of `calculateEducationalScore`. -/
def educationalKeywords : List String :=
  ["tutorial", "lesson", "explained", "learn", "how to", "guide"]

/-- The academic-institution test on the lower-cased channel title. -/
def channelAcademic (channelTitle : String) : Bool :=
  hasSubstr "academy".toList (jsToLower channelTitle).toList ||
  hasSubstr "education".toList (jsToLower channelTitle).toList ||
  hasSubstr "university".toList (jsToLower channelTitle).toList ||
  hasSubstr "school".toList (jsToLower channelTitle).toList

/-- youtubeService.calculateEducationalScore: base score
`min(viewCount / 10000, 100)`, then the `forEach` over the keyword list
adding 20 per title match, then 30 for an academic channel. -/
def calculateEducationalScore (video : EduVideo) : ℚ :=
  let base : ℚ := min ((video.viewCount : ℚ) / 10000) 100
  let titleLower := (jsToLower video.title).toList
  let withKeywords := educationalKeywords.foldl
    (fun s k => if hasSubstr k.toList titleLower then s + 20 else s) base
  if channelAcademic video.channelTitle then withKeywords + 30 else withKeywords

/-- The descending relevance order used by the comparator
`(a, b) => scoreB - scoreA`. -/
def scoreDesc (a b : EduVideo) : Prop :=
  calculateEducationalScore b ≤ calculateEducationalScore a

instance : DecidableRel scoreDesc := fun a b =>
  inferInstanceAs (Decidable (calculateEducationalScore b ≤ calculateEducationalScore a))

instance : IsTotal EduVideo scoreDesc :=
  ⟨fun a b => le_total (calculateEducationalScore b) (calculateEducationalScore a)⟩

instance : IsTrans EduVideo scoreDesc :=
  ⟨fun _ _ _ h h2 => le_trans h2 h⟩

/-- youtubeService.getEducationalVideos, success path: filter the search
items for educational indicators, return the empty list when the joined
id string would be falsy, otherwise join with statistics, sort by
educational score descending and keep the top 8. -/
def getEducationalVideos (items : List SearchItem) (stats : List EduStatItem) : EduSearchResult :=
  let educationalVideos := items.filter isEducational
  if educationalVideos.isEmpty then { success := true, videos := [] }
  else
    { success := true
      videos := (List.insertionSort scoreDesc (joinEduStats educationalVideos stats)).take 8 }

/-! ### Document controller (controllers/documentController.js) -/

/-- The request of `POST /documents/upload` as the controller sees it:
the multer file (with its stored path) and the `prompt` body field may
each be absent. -/
structure UploadRequest where
  file : Option String
  prompt : Option String
deriving DecidableEq

/-- The response payload of a successful upload. -/
structure UploadResponse where
  documentId : String
  analysis : DocAnalysis
  quizQuestions : List QuizQuestion
  youtubeVideos : List VideoMeta
  createdAt : Nat
deriving DecidableEq

/-- Outcome of `uploadAndAnalyze`, one constructor per HTTP response:
400 missing file, 400 missing prompt, 500 vision failure, 500 analysis
failure, 500 internal error (the `extractedText.length` log throws when
both text fields are absent), 200 with the saved document. -/
inductive UploadOutcome where
  | noImage
  | noPrompt
  | visionFailed
  | analysisFailed
  | internalError
  | saved (doc : Document) (response : UploadResponse)
deriving DecidableEq

/-- documentController.uploadAndAnalyze.  The adapter results are passed
in as the values the awaited service calls produced; `newId` is the
generated document id, `now` the construction time and `saveTime` the
`pre('save')` stamp.  The `documentData` object assembled in step 5
carries no `extractedText` key, so the saved record has it absent.
`quizResult.questions || []` and `youtubeResult.videos || []` are
identities here because both adapters always return lists. -/
def uploadAndAnalyze (req : UploadRequest) (visionResult : VisionResult)
    (analysisResult : AnalysisResult) (quizResult : QuizResult)
    (youtubeVideos : List VideoMeta) (newId : String) (now saveTime : Nat) : UploadOutcome :=
  match req.file with
  | none => .noImage
  | some imagePath =>
    match req.prompt with
    | none => .noPrompt
    | some p =>
      if p = "" then .noPrompt
      else if visionResult.success = false then .visionFailed
      else
        match jsOrS visionResult.structuredText visionResult.extractedText with
        | none => .internalError
        | some _ =>
          if analysisResult.success = false then .analysisFailed
          else
            let documentData : Document :=
              { documentId := newId
                originalImagePath := imagePath
                extractedText := none
                userPrompt := p
                analysis :=
                  { summary := some analysisResult.analysis.summary
                    explanation := some analysisResult.analysis.explanation
                    keyPoints := analysisResult.analysis.keyPoints
                    concepts := analysisResult.analysis.concepts }
                quizQuestions := quizResult.questions
                youtubeVideos := youtubeVideos
                createdAt := now
                updatedAt := now }
            let document := mongooseSave documentData saveTime
            .saved document
              { documentId := document.documentId
                analysis := document.analysis
                quizQuestions := document.quizQuestions
                youtubeVideos := document.youtubeVideos
                createdAt := document.createdAt }

/-- One list entry built by `getAllDocuments`. -/
structure DocSummary where
  id : String
  userPrompt : String
  summary : String
  createdAt : Nat
  textPreview : String
deriving DecidableEq

/-- The pagination metadata shape shared by `getAllDocuments`
(`totalDocuments`) and `getAllChats` (`totalChats`). -/
structure Pagination where
  currentPage : Nat
  totalPages : Nat
  totalCount : Nat
  hasNext : Bool
  hasPrev : Bool
deriving DecidableEq

/-- Outcome of `GET /documents`: a 200 list response or the 500 of the
catch block. -/
inductive DocsListOutcome where
  | ok (documents : List DocSummary) (pagination : Pagination)
  | serverError (message : String)
deriving DecidableEq

/-- The recency order `sort({ createdAt: -1 })`. -/
def createdDesc (a b : Document) : Prop :=
  b.createdAt ≤ a.createdAt

instance : DecidableRel createdDesc := fun _ _ => Nat.decLe _ _

/-- The per-document mapper of `getAllDocuments`.  When `extractedText`
is absent, `doc.extractedText.substring(0, 100)` throws a TypeError. -/
def docSummaryOf (d : Document) : Except Unit DocSummary :=
  match d.extractedText with
  | none => .error ()
  | some t =>
    .ok { id := d.documentId
          userPrompt := d.userPrompt
          summary := jsOrD d.analysis.summary "No summary available"
          createdAt := d.createdAt
          textPreview := t.take 100 ++ "..." }

/-- documentController.getAllDocuments over the whole document store:
sort by recency, skip `(page-1)*limit`, take `limit`, map to summaries
(throwing into the catch block on any absent `extractedText`), and attach
pagination metadata computed from the total count. -/
def getAllDocuments (store : List Document) (page limit : Nat) : DocsListOutcome :=
  let skip := (page - 1) * limit
  let pageDocs := ((List.insertionSort createdDesc store).drop skip).take limit
  let total := store.length
  match mapExcept docSummaryOf pageDocs with
  | .error _ => .serverError "Failed to retrieve documents"
  | .ok summaries =>
    .ok summaries
      { currentPage := page
        totalPages := mathCeilDiv total limit
        totalCount := total
        hasNext := decide (page < mathCeilDiv total limit)
        hasPrev := decide (1 < page) }

/-- Outcome of `POST /documents/:id/regenerate-quiz`. -/
inductive RegenOutcome where
  | badRequest
  | notFound
  | ok (doc : Document) (quizQuestions : List QuizQuestion)
deriving DecidableEq

/-- documentController.regenerateQuestions.  `docLookup` is the result of
`Document.findById`; `genQuiz` is the quiz adapter applied to the stored
`extractedText` and `userPrompt` exactly as the controller does; the save
stamps `updatedAt` after the controller already set it to `now`. -/
def regenerateQuestions (documentId : String) (docLookup : Option Document)
    (genQuiz : Option String → String → QuizResult) (now saveTime : Nat) : RegenOutcome :=
  if documentId = "" then .badRequest
  else
    match docLookup with
    | none => .notFound
    | some doc =>
      let quizResult := genQuiz doc.extractedText doc.userPrompt
      let updated := mongooseSave
        { doc with quizQuestions := quizResult.questions, updatedAt := now } saveTime
      .ok updated updated.quizQuestions

/-! ### Chat controller (controllers/chatController.js), list endpoint -/

/-- The populated `documentId` reference of a chat (fields selected by
`populate`): absent when the referenced document was deleted. -/
structure PopulatedDoc where
  id : String
  userPrompt : String
  summary : Option String
  createdAt : Nat
deriving DecidableEq

/-- A chat record as `getAllChats` sees it after `populate`. -/
structure PopulatedChat where
  chatId : String
  docRef : Option PopulatedDoc
  messages : List ChatMessage
  createdAt : Nat
  updatedAt : Nat
deriving DecidableEq

/-- One list entry built by `getAllChats`. -/
structure ChatSummary where
  chatId : String
  documentId : Option String
  documentSummary : String
  userPrompt : String
  messageCount : Nat
  lastMessage : String
  lastUpdated : Nat
  createdAt : Nat
deriving DecidableEq

/-- The 200 response of `GET /chat` (the mapper never throws). -/
structure ChatsListResponse where
  chats : List ChatSummary
  pagination : Pagination
deriving DecidableEq

/-- The recency order `sort({ updatedAt: -1 })`. -/
def updatedDesc (a b : PopulatedChat) : Prop :=
  b.updatedAt ≤ a.updatedAt

instance : DecidableRel updatedDesc := fun _ _ => Nat.decLe _ _

/-- The per-chat mapper of `getAllChats`: optional chaining guards the
populated document, and the last-message preview is only built when the
message list is non-empty. -/
def chatSummaryOf (c : PopulatedChat) : ChatSummary :=
  { chatId := c.chatId
    documentId := c.docRef.map PopulatedDoc.id
    documentSummary := jsOrD (c.docRef.bind PopulatedDoc.summary) "No summary"
    userPrompt := jsOrD (c.docRef.map PopulatedDoc.userPrompt) "No prompt"
    messageCount := c.messages.length
    lastMessage :=
      match c.messages.getLast? with
      | some m => m.content.take 100 ++ "..."
      | none => "No messages"
    lastUpdated := c.updatedAt
    createdAt := c.createdAt }

/-- chatController.getAllChats over the whole chat store: sort by
`updatedAt` descending, page, map to summaries, attach pagination. -/
def getAllChats (store : List PopulatedChat) (page limit : Nat) : ChatsListResponse :=
  let skip := (page - 1) * limit
  let pageChats := ((List.insertionSort updatedDesc store).drop skip).take limit
  let total := store.length
  { chats := pageChats.map chatSummaryOf
    pagination :=
      { currentPage := page
        totalPages := mathCeilDiv total limit
        totalCount := total
        hasNext := decide (page < mathCeilDiv total limit)
        hasPrev := decide (1 < page) }}

/-! ### PDF generator (utils/pdfGenerator.js) -/

/-- The data handed to `generatePDF` by the export controller. -/
structure ExportData where
  document : Document
  chatHistory : Option ChatRecord
  exportType : String

/-- A rendered PDF is modelled as the ordered list of text blocks written
into the page writer; fonts, sizes and spacing are not observable here. -/
def addHeader (title : String) : List String :=
  [title]

/-- pdfGenerator.addContinuousQuiz: number each question, letter the
options of an `mcq` with options (marking the correct one), otherwise
print the answer line, and append the explanation when it is truthy. -/
def addContinuousQuiz (questions : List QuizQuestion) : List String :=
  (questions.enum.map (fun iq =>
    [toString (iq.1 + 1) ++ ". " ++ iq.2.question] ++
    (match iq.2.options with
     | some opts =>
       if iq.2.type = "mcq" then
         opts.enum.map (fun jo =>
           "   " ++ String.singleton (Char.ofNat (65 + jo.1)) ++ ". " ++ jo.2 ++
           (if jo.2 = iq.2.correctAnswer then " ✓" else ""))
       else ["   Answer: " ++ iq.2.correctAnswer]
     | none => ["   Answer: " ++ iq.2.correctAnswer]) ++
    (if iq.2.explanation = "" then [] else ["   Explanation: " ++ iq.2.explanation]))).flatten

/-- pdfGenerator.addContinuousVideos: at most 8 entries of title, channel
and URL.  The stored video schema has no `url` field, so the template
literal renders the string `undefined`. -/
def addContinuousVideos (videos : List VideoMeta) : List String :=
  ((videos.take 8).enum.map (fun iv =>
    [toString (iv.1 + 1) ++ ". " ++ iv.2.title,
     "   Channel: " ++ iv.2.channelTitle,
     "   URL: undefined"])).flatten

/-- pdfGenerator.addContinuousContent: the content blocks for a given
export type (`complete` by default).  Truthiness conditions on the
optional strings follow the JavaScript `if (document.x)` tests. -/
def addContinuousContent (document : Document) (type : String) : List String :=
  (if type = "complete" ∨ type = "summary" then
    (match document.extractedText with
     | some t => if t = "" then [] else [t]
     | none => []) ++
    (match document.analysis.summary with
     | some s => if s = "" then [] else ["Summary:", s]
     | none => []) ++
    (if document.analysis.keyPoints.isEmpty then []
     else "Key Points:" :: document.analysis.keyPoints.map (fun point => "• " ++ point)) ++
    (if document.analysis.concepts.isEmpty then []
     else "Concepts:" :: document.analysis.concepts.map (fun concept => "• " ++ concept)) ++
    (match document.analysis.explanation with
     | some e => if e ≠ "" ∧ type = "complete" then ["Detailed Explanation:", e] else []
     | none => [])
  else []) ++
  (if (type = "complete" ∨ type = "quiz") ∧ ¬document.quizQuestions.isEmpty then
    (if type = "complete" then ["Quiz Questions:"] else []) ++
    addContinuousQuiz document.quizQuestions
  else []) ++
  (if type = "complete" ∧ ¬document.youtubeVideos.isEmpty then
    "Recommended Videos:" :: addContinuousVideos document.youtubeVideos
  else [])

/-- pdfGenerator.generateCompletePDF. -/
def generateCompletePDF (document : Document) : List String :=
  addHeader "Study Material" ++ addContinuousContent document "complete"

/-- pdfGenerator.generateSummaryPDF. -/
def generateSummaryPDF (document : Document) : List String :=
  addHeader "Study Summary" ++ addContinuousContent document "summary"

/-- pdfGenerator.generateQuizPDF. -/
def generateQuizPDF (document : Document) : List String :=
  addHeader "Quiz Questions" ++ addContinuousContent document "quiz"

/-- pdfGenerator.generateNotesPDF: the notes mode reuses the summary
content under a different title. -/
def generateNotesPDF (document : Document) : List String :=
  addHeader "Study Notes" ++ addContinuousContent document "summary"

/-- pdfGenerator.generatePDF: the switch over `data.exportType`.  There is
no case for `chat`, so a chat export falls into the `default` branch and
is rendered by `generateCompletePDF`; the chat history in `data` is never
read. -/
def generatePDF (data : ExportData) : List String :=
  if data.exportType = "complete" then generateCompletePDF data.document
  else if data.exportType = "summary" then generateSummaryPDF data.document
  else if data.exportType = "quiz" then generateQuizPDF data.document
  else if data.exportType = "notes" then generateNotesPDF data.document
  else generateCompletePDF data.document

/-! ### Export controller (controllers/exportController.js) -/

/-- Outcome of `GET /export/:id/chat`: 400 missing id, 404 document
missing, 404 missing or empty chat history, or the PDF attachment. -/
inductive ExportChatOutcome where
  | badRequest
  | documentNotFound
  | noChatHistory
  | pdf (blocks : List String)
deriving DecidableEq

/-- exportController.exportChatHistory.  `docLookup` and `chatLookup` are
the results of `Document.findById` and `ChatHistory.findOne`; a present
but empty message list is rejected exactly like a missing record, and the
PDF is produced by `generatePDF` with `exportType = "chat"`. -/
def exportChatHistory (documentId : String) (docLookup : Option Document)
    (chatLookup : Option ChatRecord) : ExportChatOutcome :=
  if documentId = "" then .badRequest
  else
    match docLookup with
    | none => .documentNotFound
    | some document =>
      match chatLookup with
      | none => .noChatHistory
      | some chatHistory =>
        if chatHistory.messages.length = 0 then .noChatHistory
        else .pdf (generatePDF
          { document := document, chatHistory := some chatHistory, exportType := "chat" })

/-! ### Specification-side properties and concrete scenario inputs -/

/-- A pair of adjacent characters is acceptable in normalized text when
at most one of the two is whitespace. -/
def noWsPair (a b : Char) : Prop :=
  jsWhitespace a = false ∨ jsWhitespace b = false

instance : DecidableRel noWsPair := fun _ _ =>
  inferInstanceAs (Decidable (_ = _ ∨ _ = _))

/-- Whitespace-normalization as the specification states it: no two
consecutive whitespace characters (hence neither double spaces nor double
line breaks) and no leading or trailing whitespace. -/
def wsNormalized (s : String) : Prop :=
  s.toList.Chain' noWsPair ∧
  s.toList.head?.all (fun c => !jsWhitespace c) = true ∧
  s.toList.getLast?.all (fun c => !jsWhitespace c) = true

/-- Whether a string contains two consecutive line breaks. -/
def containsDoubleNewline (s : String) : Bool :=
  hasSubstr ['\n', '\n'] s.toList

/-- The relevance-score formula exactly as the specification words it:
`min(viewCount/10000, 100)` plus 20 for each keyword of the fixed
title-keyword list found in the title plus 30 if the channel name
contains an academic-institution marker. -/
def specEducationalScore (v : EduVideo) : ℚ :=
  min ((v.viewCount : ℚ) / 10000) 100 +
  20 * (educationalKeywords.countP
    (fun k => hasSubstr k.toList (jsToLower v.title).toList) : ℚ) +
  (if channelAcademic v.channelTitle then 30 else 0)

/-- A document as the upload pipeline persists it (`extractedText`
absent), used to exercise the list endpoint. -/
def pipelineStoredDoc : Document :=
  { documentId := "doc-1"
    originalImagePath := "uploads/a.png"
    extractedText := none
    userPrompt := "explain"
    analysis := { summary := some "s", explanation := some "e", keyPoints := [], concepts := [] }
    quizQuestions := []
    youtubeVideos := []
    createdAt := 1
    updatedAt := 1 }

/-- A stored document used to exercise the chat export. -/
def chatExportDoc : Document :=
  { documentId := "doc-2"
    originalImagePath := "uploads/b.png"
    extractedText := none
    userPrompt := "explain photosynthesis"
    analysis := { summary := some "Photosynthesis summary.", explanation := none,
                  keyPoints := [], concepts := [] }
    quizQuestions := []
    youtubeVideos := []
    createdAt := 1
    updatedAt := 1 }

/-- A non-empty chat history attached to `chatExportDoc`. -/
def chatExportHistory : ChatRecord :=
  { chatId := "chat-2"
    documentId := "doc-2"
    messages := [{ role := "user", content := "What is chlorophyll", timestamp := 2 }]
    createdAt := 2
    updatedAt := 2 }

/-- A document-text annotation with one block of two one-word paragraphs,
so the assembled structured text joins the paragraphs with a blank
line. -/
def annoTwoParagraphs : FullAnno :=
  { pages := [{ blocks := [{ paragraphs :=
      [{ words := [{ symbols := ["a"] }] },
       { words := [{ symbols := ["b"] }] }] }] }]
    text := some "a\nb" }

/-- The three search items of the sorting scenario (view counts are
supplied by `volcanoStats`). -/
def volcanoItems : List SearchItem :=
  [{ videoId := "v1", title := "Volcano basics", channelTitle := "GeoChannel",
     description := "intro", publishedAt := 10, thumbnailUrl := none },
   { videoId := "v2", title := "Volcano eruptions", channelTitle := "ScienceHub",
     description := "eruptions", publishedAt := 11, thumbnailUrl := none },
   { videoId := "v3", title := "Volcano types", channelTitle := "EarthFacts",
     description := "types", publishedAt := 12, thumbnailUrl := none }]

/-- The statistics lookup of the sorting scenario: view counts 500,
50000 and 5000 in search order. -/
def volcanoStats : List StatItem :=
  [{ id := "v1", viewCount := 500 },
   { id := "v2", viewCount := 50000 },
   { id := "v3", viewCount := 5000 }]

/-- Concrete upload request used to exercise the pipeline. -/
def c1req : UploadRequest :=
  { file := some "uploads/leaf.png", prompt := some "explain photosynthesis" }

/-- Concrete OCR result with non-empty structured text. -/
def c1vision : VisionResult :=
  { success := true, extractedText := none, rawText := none,
    structuredText := some "Photosynthesis converts light into energy.",
    confidence := 9/10 }

/-- Concrete analysis result used to exercise the pipeline. -/
def c1analysis : AnalysisResult :=
  { success := true,
    analysis := { summary := "sum", explanation := "exp", keyPoints := [],
                  concepts := [], searchKeywords := [] } }

/-- Concrete quiz result used to exercise the pipeline. -/
def c1quiz : QuizResult :=
  { success := true, questions := [] }

/-- The document the pipeline persists for the inputs above. -/
def c1doc : Document :=
  { documentId := "id-1", originalImagePath := "uploads/leaf.png",
    extractedText := none, userPrompt := "explain photosynthesis",
    analysis := { summary := some "sum", explanation := some "exp",
                  keyPoints := [], concepts := [] },
    quizQuestions := [], youtubeVideos := [], createdAt := 5, updatedAt := 6 }

/-- The response payload the pipeline returns for the inputs above. -/
def c1resp : UploadResponse :=
  { documentId := "id-1",
    analysis := { summary := some "sum", explanation := some "exp",
                  keyPoints := [], concepts := [] },
    quizQuestions := [], youtubeVideos := [], createdAt := 5 }

/-- Concrete chat store entry used to exercise the chats list. -/
def c9chat : PopulatedChat :=
  { chatId := "chat-1", docRef := none, messages := [], createdAt := 1, updatedAt := 1 }

/-- A stored document that does carry extracted text, used to build a
mixed store alongside `pipelineStoredDoc`. -/
def c2docWithText : Document :=
  { documentId := "doc-0"
    originalImagePath := "uploads/z.png"
    extractedText := some "Some extracted text."
    userPrompt := "summarize"
    analysis := { summary := some "s0", explanation := some "e0", keyPoints := [], concepts := [] }
    quizQuestions := []
    youtubeVideos := []
    createdAt := 2
    updatedAt := 2 }

/-! ### Helper lemmas -/

theorem analyzeContent_success (env : GeminiEnv) (providerText : Outcome String)
    (parsed : Option ParsedAnalysis) (scrapeStr : String → Option String)
    (scrapeArr : String → Option (List String)) (extractedText userPrompt : String) :
    (analyzeContent env providerText parsed scrapeStr scrapeArr extractedText userPrompt).success
      = true := by
  unfold analyzeContent
  split
  · rfl
  · cases providerText with
    | err => rfl
    | ok t => unfold parseAnalysisResponse; cases parsed <;> rfl

theorem generateQuizQuestions_success (env : GeminiEnv) (providerText : Outcome String)
    (parsed : Option (List RawQuestion)) (userPrompt : String) :
    (generateQuizQuestions env providerText parsed userPrompt).success = true := by
  unfold generateQuizQuestions
  split
  · rfl
  · cases providerText with
    | err => rfl
    | ok t => unfold parseQuizResponse; cases parsed <;> rfl

theorem answerQuestion_success (env : GeminiEnv) (providerText : Outcome String) :
    (answerQuestion env providerText).success = true := by
  unfold answerQuestion
  split
  · rfl
  · cases providerText <;> rfl

/-! ### C1 -/

/-- C1: every document the upload pipeline saves has `extractedText`
absent, because the `documentData` object assembled in `uploadAndAnalyze`
omits the field — even when the OCR step produced non-empty text. -/
theorem uploadAndAnalyze_omits_extractedText (req : UploadRequest)
    (visionResult : VisionResult) (analysisResult : AnalysisResult)
    (quizResult : QuizResult) (youtubeVideos : List VideoMeta)
    (newId : String) (now saveTime : Nat) (doc : Document) (response : UploadResponse)
    (h : uploadAndAnalyze req visionResult analysisResult quizResult youtubeVideos
      newId now saveTime = .saved doc response) :
    doc.extractedText = none := by
  unfold uploadAndAnalyze at h
  repeat' split at h
  all_goals cases h
  all_goals rfl

/-- Witness for C1: a concrete pipeline run whose OCR result carries
non-empty structured text still persists a document with absent
`extractedText`. -/
theorem uploadAndAnalyze_omits_extractedText_witness :
    uploadAndAnalyze c1req c1vision c1analysis c1quiz [] "id-1" 5 6 =
      .saved c1doc c1resp ∧
    c1doc.extractedText = none :=
  ⟨by decide,
   uploadAndAnalyze_omits_extractedText c1req c1vision c1analysis c1quiz [] "id-1" 5 6
     c1doc c1resp (by decide)⟩

/-! ### C10 -/

/-- C10: quiz regeneration reruns only the quiz-generation step against
the stored `extractedText` and `userPrompt`, and overwrites exactly
`quizQuestions` and `updatedAt`; every other field of the document is
unchanged. -/
theorem regenerateQuestions_frame (documentId : String) (doc : Document)
    (genQuiz : Option String → String → QuizResult) (now saveTime : Nat)
    (updated : Document) (questions : List QuizQuestion)
    (h : regenerateQuestions documentId (some doc) genQuiz now saveTime =
      .ok updated questions) :
    updated.originalImagePath = doc.originalImagePath ∧
    updated.userPrompt = doc.userPrompt ∧
    updated.extractedText = doc.extractedText ∧
    updated.analysis = doc.analysis ∧
    updated.youtubeVideos = doc.youtubeVideos ∧
    updated.createdAt = doc.createdAt ∧
    updated.documentId = doc.documentId ∧
    updated.quizQuestions = (genQuiz doc.extractedText doc.userPrompt).questions ∧
    updated.updatedAt = saveTime ∧
    questions = updated.quizQuestions := by
  unfold regenerateQuestions at h
  split at h
  · cases h
  · simp only [mongooseSave] at h
    cases h
    exact ⟨rfl, rfl, rfl, rfl, rfl, rfl, rfl, rfl, rfl, rfl⟩

/-- Witness for C10: a concrete regeneration run. -/
theorem regenerateQuestions_frame_witness :
    regenerateQuestions "doc-1" (some pipelineStoredDoc)
      (fun _ p => fallbackQuizGeneration p) 7 8 =
      .ok (mongooseSave { pipelineStoredDoc with
            quizQuestions := (fallbackQuizGeneration "explain").questions
            updatedAt := 7 } 8)
        (fallbackQuizGeneration "explain").questions ∧
    (mongooseSave { pipelineStoredDoc with
        quizQuestions := (fallbackQuizGeneration "explain").questions
        updatedAt := 7 } 8).extractedText = pipelineStoredDoc.extractedText ∧
    (mongooseSave { pipelineStoredDoc with
        quizQuestions := (fallbackQuizGeneration "explain").questions
        updatedAt := 7 } 8).updatedAt = 8 := by
  have h : regenerateQuestions "doc-1" (some pipelineStoredDoc)
      (fun _ p => fallbackQuizGeneration p) 7 8 =
      .ok (mongooseSave { pipelineStoredDoc with
            quizQuestions := (fallbackQuizGeneration "explain").questions
            updatedAt := 7 } 8)
        (fallbackQuizGeneration "explain").questions := by decide
  have frame := regenerateQuestions_frame "doc-1" pipelineStoredDoc
    (fun _ p => fallbackQuizGeneration p) 7 8 _ _ h
  exact ⟨h, frame.2.2.1, frame.2.2.2.2.2.2.2.2.1⟩

/-! ### C6 -/

/-- C6: whenever the OCR provider is misconfigured, or both provider
calls fail to produce detections, both OCR entry points return the
fallback result: `success = true`, `confidence = 0`, and placeholder text
ending in the final path component of the image path. -/
theorem ocr_fallback_shape (env : VisionEnv) (docDetect : Outcome (Option FullAnno))
    (textDetect : Outcome (List Detection)) (imagePath : String)
    (h : env.isConfigured = false ∨
      ((docDetect = .err ∨ docDetect = .ok none) ∧
       (textDetect = .err ∨ textDetect = .ok []))) :
    detectDocumentStructure env docDetect textDetect imagePath =
      fallbackTextExtraction imagePath ∧
    extractTextFromImage env textDetect imagePath = fallbackTextExtraction imagePath ∧
    (fallbackTextExtraction imagePath).success = true ∧
    (fallbackTextExtraction imagePath).confidence = 0 ∧
    (fallbackTextExtraction imagePath).extractedText =
      some (fallbackHeaderText ++ lastPathComponent imagePath) := by
  refine ⟨?_, ?_, rfl, rfl, rfl⟩
  · rcases h with h | ⟨hdoc, htext⟩
    · unfold detectDocumentStructure
      rw [h]
      rfl
    · by_cases hc : env.isConfigured = false
      · unfold detectDocumentStructure
        rw [hc]
        rfl
      · rcases hdoc with h1 | h1 <;> rcases htext with h2 | h2 <;>
          simp [detectDocumentStructure, extractTextFromImage, h1, h2, hc]
  · rcases h with h | ⟨_, htext⟩
    · unfold extractTextFromImage
      rw [h]
      rfl
    · by_cases hc : env.isConfigured = false
      · unfold extractTextFromImage
        rw [hc]
        rfl
      · rcases htext with h2 | h2 <;> simp [extractTextFromImage, h2, hc]

/-- Witness for C6: the misconfigured adapter on a concrete path. -/
theorem ocr_fallback_shape_witness :
    detectDocumentStructure { isConfigured := false } .err .err "uploads/pic one.png" =
      fallbackTextExtraction "uploads/pic one.png" ∧
    extractTextFromImage { isConfigured := false } .err "uploads/pic one.png" =
      fallbackTextExtraction "uploads/pic one.png" ∧
    (fallbackTextExtraction "uploads/pic one.png").success = true ∧
    (fallbackTextExtraction "uploads/pic one.png").confidence = 0 ∧
    (fallbackTextExtraction "uploads/pic one.png").extractedText =
      some (fallbackHeaderText ++ lastPathComponent "uploads/pic one.png") :=
  ocr_fallback_shape { isConfigured := false } .err .err "uploads/pic one.png"
    (Or.inl rfl)

/-! ### C5 -/

/-- C5: every path of the three AI-analysis adapter operations returns
`success = true` — provider failures are absorbed into degraded content —
and consequently the `Failed to analyze content` abort branch of the
upload pipeline is unreachable whenever the analysis result comes from
the adapter. -/
theorem gemini_always_success :
    (∀ env providerText parsed scrapeStr scrapeArr extractedText userPrompt,
      (analyzeContent env providerText parsed scrapeStr scrapeArr
        extractedText userPrompt).success = true) ∧
    (∀ env providerText parsed userPrompt,
      (generateQuizQuestions env providerText parsed userPrompt).success = true) ∧
    (∀ env providerText, (answerQuestion env providerText).success = true) ∧
    (∀ req visionResult quizResult youtubeVideos newId now saveTime
        env providerText parsed scrapeStr scrapeArr extractedText userPrompt,
      uploadAndAnalyze req visionResult
        (analyzeContent env providerText parsed scrapeStr scrapeArr
          extractedText userPrompt)
        quizResult youtubeVideos newId now saveTime ≠ .analysisFailed) := by
  refine ⟨analyzeContent_success, generateQuizQuestions_success, answerQuestion_success, ?_⟩
  intro req visionResult quizResult youtubeVideos newId now saveTime
    env providerText parsed scrapeStr scrapeArr extractedText userPrompt h
  unfold uploadAndAnalyze at h
  repeat' split at h
  all_goals try cases h
  next hfail =>
    rw [analyzeContent_success env providerText parsed scrapeStr scrapeArr
      extractedText userPrompt] at hfail
    cases hfail

/-! ### C7 -/

/-- C7: every successful plain video search returns the joined list
sorted by view count descending; in particular, three items with view
counts [500, 50000, 5000] come back in the order [50000, 5000, 500]. -/
theorem searchVideos_sorted_by_views :
    (∀ (items : List SearchItem) (stats : List StatItem),
      ((searchVideos items stats).videos).Pairwise viewDesc) ∧
    ((searchVideos volcanoItems volcanoStats).videos.map JoinedVideo.viewCount =
      [50000, 5000, 500]) := by
  constructor
  · intro items stats
    unfold searchVideos
    split
    · exact List.Pairwise.nil
    · exact List.sorted_insertionSort viewDesc (joinStats items stats)
  · decide

/-! ### C9 -/

theorem mathCeilDiv_lt_iff (total limit page : Nat) (hl : 1 ≤ limit) :
    page < mathCeilDiv total limit ↔ (page : ℚ) < (total : ℚ) / (limit : ℚ) := by
  have key : page < mathCeilDiv total limit ↔ page * limit < total := by
    unfold mathCeilDiv
    rw [Nat.lt_iff_add_one_le, Nat.le_div_iff_mul_le (show 0 < limit by omega),
      Nat.succ_mul]
    omega
  have h0 : (0 : ℚ) < (limit : ℚ) := by exact_mod_cast Nat.lt_of_lt_of_le Nat.zero_lt_one hl
  rw [key, lt_div_iff₀ h0]
  exact_mod_cast Iff.rfl

theorem mapExcept_ok_length (f : α → Except Unit β) :
    ∀ (l : List α) (ys : List β), mapExcept f l = .ok ys → ys.length = l.length := by
  intro l
  induction l with
  | nil => intro ys h; cases h; rfl
  | cons x xs ih =>
    intro ys h
    unfold mapExcept at h
    split at h
    · cases h
    · split at h
      · cases h
      · next hrec => cases h; simpa using ih _ hrec

/-- C9: for every paginated list request with `page ≥ 1` and `limit ≥ 1`
over a store of `total` items, both the chats list and (when it succeeds)
the documents list report `hasNext = page < ceil(total / limit)`,
`hasPrev = page > 1`, and return at most `limit` items. -/
theorem pagination_invariant (docs : List Document) (chats : List PopulatedChat)
    (page limit : Nat) (_hp : 1 ≤ page) (hl : 1 ≤ limit) :
    ((getAllChats chats page limit).pagination.hasNext = true ↔
      (page : ℚ) < (chats.length : ℚ) / (limit : ℚ)) ∧
    ((getAllChats chats page limit).pagination.hasPrev = true ↔ 1 < page) ∧
    (getAllChats chats page limit).chats.length ≤ limit ∧
    ∀ summaries pag, getAllDocuments docs page limit = .ok summaries pag →
      (pag.hasNext = true ↔ (page : ℚ) < (docs.length : ℚ) / (limit : ℚ)) ∧
      (pag.hasPrev = true ↔ 1 < page) ∧
      summaries.length ≤ limit := by
  refine ⟨?_, ?_, ?_, ?_⟩
  · simpa [getAllChats] using mathCeilDiv_lt_iff chats.length limit page hl
  · simp [getAllChats]
  · simp only [getAllChats, List.length_map]
    exact le_trans (Nat.le_of_eq (List.length_take _ _)) (min_le_left _ _)
  · intro summaries pag h
    simp only [getAllDocuments] at h
    split at h
    · cases h
    · next heq =>
      cases h
      refine ⟨?_, ?_, ?_⟩
      · simpa using mathCeilDiv_lt_iff docs.length limit page hl
      · simp
      · rw [mapExcept_ok_length docSummaryOf _ _ heq]
        exact le_trans (Nat.le_of_eq (List.length_take _ _)) (min_le_left _ _)

/-- Witness for C9: default pagination over a one-chat, one-document
store. -/
theorem pagination_invariant_witness :
    (((getAllChats [c9chat] 1 10).pagination.hasNext = true ↔
      (1 : ℚ) < (((1 : Nat) : ℚ)) / (((10 : Nat) : ℚ))) ∧
     ((getAllChats [c9chat] 1 10).pagination.hasPrev = true ↔ 1 < 1) ∧
     (getAllChats [c9chat] 1 10).chats.length ≤ 10 ∧
     ∀ summaries pag, getAllDocuments [pipelineStoredDoc] 1 10 = .ok summaries pag →
       (pag.hasNext = true ↔ (1 : ℚ) < (((1 : Nat) : ℚ)) / (((10 : Nat) : ℚ))) ∧
       (pag.hasPrev = true ↔ 1 < 1) ∧
       summaries.length ≤ 10) := by
  have := pagination_invariant [pipelineStoredDoc] [c9chat] 1 10 (by decide) (by decide)
  simpa using this

/-! ### C2 -/

theorem mapExcept_error_of_mem (f : α → Except Unit β) :
    ∀ (l : List α) (x : α), x ∈ l → f x = .error () → mapExcept f l = .error () := by
  intro l
  induction l with
  | nil => intro x hx; cases hx
  | cons a as ih =>
    intro x hx hfx
    unfold mapExcept
    rcases List.mem_cons.mp hx with rfl | hx2
    · rw [hfx]
    · cases hfa : f a with
      | error e => cases e; rfl
      | ok y => rw [ih x hx2 hfx]

/-- C2 (amended): every list request whose returned page slice contains a
document with absent `extractedText` — any page and limit, including
stores mixing documents with and without extracted text — throws while
building `textPreview` and returns the 500 failure.  The endpoint does
not fail on every request merely because such a document exists in the
store: the counterexample shows a page beyond the last succeeding. -/
theorem getAllDocuments_fails_on_slice (store : List Document) (page limit : Nat)
    (d : Document)
    (hmem : d ∈ ((List.insertionSort createdDesc store).drop ((page - 1) * limit)).take limit)
    (hd : d.extractedText = none) :
    getAllDocuments store page limit = .serverError "Failed to retrieve documents" := by
  have herr : docSummaryOf d = .error () := by
    unfold docSummaryOf
    rw [hd]
  simp only [getAllDocuments]
  rw [mapExcept_error_of_mem docSummaryOf _ d hmem herr]

/-- Witness for the amended C2: a mixed two-document store — one document
with text, one pipeline-created without — fails on the default page-1
request because the slice contains the absent-text document. -/
theorem getAllDocuments_fails_on_slice_witness :
    getAllDocuments [c2docWithText, pipelineStoredDoc] 1 10 =
      .serverError "Failed to retrieve documents" :=
  getAllDocuments_fails_on_slice [c2docWithText, pipelineStoredDoc] 1 10
    pipelineStoredDoc (by decide) (by decide)

/-- Counterexample to C2 as stated: a store holding a pipeline-created
document (absent `extractedText`) for which the list endpoint does not
fail — requesting page 2 yields an empty slice, so no `substring` call
throws and the response is a 200. -/
theorem getAllDocuments_succeeds_beyond_range :
    pipelineStoredDoc.extractedText = none ∧
    getAllDocuments [pipelineStoredDoc] 2 10 =
      .ok [] { currentPage := 2, totalPages := 1, totalCount := 1,
               hasNext := false, hasPrev := true } := by
  constructor
  · rfl
  · decide

/-! ### C3 -/

/-- C3 (amended): the chat export keeps the NotFound behaviour — a
missing document, a missing chat record or an empty message list yield a
404 — but the returned PDF for a non-empty history is produced by the
complete-mode renderer (the `generatePDF` switch has no `chat` case), so
its content is independent of the chat messages and contains no
conversation transcript. -/
theorem exportChatHistory_renders_complete (documentId : String) (document : Document)
    (chatHistory : ChatRecord) (hid : documentId ≠ "")
    (hmsg : chatHistory.messages ≠ []) :
    exportChatHistory documentId (some document) (some chatHistory) =
      .pdf (generateCompletePDF document) ∧
    (∀ other : ChatRecord, other.messages ≠ [] →
      exportChatHistory documentId (some document) (some other) =
        exportChatHistory documentId (some document) (some chatHistory)) ∧
    exportChatHistory documentId (some document) none = .noChatHistory ∧
    (∀ cleared : ChatRecord, cleared.messages = [] →
      exportChatHistory documentId (some document) (some cleared) = .noChatHistory) ∧
    exportChatHistory documentId none (some chatHistory) = .documentNotFound := by
  have render : ∀ ch : ChatRecord, ch.messages ≠ [] →
      exportChatHistory documentId (some document) (some ch) =
        .pdf (generateCompletePDF document) := by
    intro ch hch
    simp only [exportChatHistory, hid, if_false, List.length_eq_zero]
    rw [if_neg hch]
    rfl
  refine ⟨render chatHistory hmsg, ?_, ?_, ?_, ?_⟩
  · intro other hother
    rw [render other hother, render chatHistory hmsg]
  · simp [exportChatHistory, hid]
  · intro cleared hcleared
    simp [exportChatHistory, hid, hcleared]
  · simp [exportChatHistory, hid]

/-- Witness for the amended C3: a concrete non-empty history is exported
as the complete-mode PDF of the document. -/
theorem exportChatHistory_renders_complete_witness :
    exportChatHistory "doc-2" (some chatExportDoc) (some chatExportHistory) =
      .pdf (generateCompletePDF chatExportDoc) ∧
    (∀ other : ChatRecord, other.messages ≠ [] →
      exportChatHistory "doc-2" (some chatExportDoc) (some other) =
        exportChatHistory "doc-2" (some chatExportDoc) (some chatExportHistory)) ∧
    exportChatHistory "doc-2" (some chatExportDoc) none = .noChatHistory ∧
    (∀ cleared : ChatRecord, cleared.messages = [] →
      exportChatHistory "doc-2" (some chatExportDoc) (some cleared) = .noChatHistory) ∧
    exportChatHistory "doc-2" none (some chatExportHistory) = .documentNotFound :=
  exportChatHistory_renders_complete "doc-2" chatExportDoc chatExportHistory
    (by decide) (by decide)

/-- Counterexample to C3 as stated: a document with a non-empty chat
history whose export succeeds but renders the complete study material —
the transcript (the message content) appears nowhere in the produced
blocks, and the header is the fixed complete-mode title. -/
theorem exportChatHistory_no_transcript :
    exportChatHistory "doc-2" (some chatExportDoc) (some chatExportHistory) =
      .pdf ["Study Material", "Summary:", "Photosynthesis summary."] ∧
    chatExportHistory.messages ≠ [] ∧
    hasSubstr "What is chlorophyll".toList
      (String.join ["Study Material", "Summary:", "Photosynthesis summary."]).toList
      = false := by
  refine ⟨by decide, by decide, by decide⟩

/-! ### C8 -/

theorem foldl_keyword_bonus (m : String → Bool) :
    ∀ (l : List String) (b : ℚ),
      l.foldl (fun s k => if m k then s + 20 else s) b = b + 20 * (l.countP m : ℚ) := by
  intro l
  induction l with
  | nil => intro b; simp
  | cons k ks ih =>
    intro b
    rw [List.foldl_cons, List.countP_cons]
    by_cases hk : m k = true
    · rw [if_pos hk, ih, if_pos hk]
      push_cast
      ring
    · rw [if_neg hk, ih, if_neg hk]
      push_cast
      ring

theorem calculateEducationalScore_eq_spec (v : EduVideo) :
    calculateEducationalScore v = specEducationalScore v := by
  simp only [calculateEducationalScore, specEducationalScore]
  rw [foldl_keyword_bonus]
  by_cases hc : channelAcademic v.channelTitle = true
  · rw [if_pos hc, if_pos hc]
  · rw [if_neg hc, if_neg hc]
    ring

/-- C8: every successful educational search scores each kept video as
`min(viewCount/10000, 100)` plus 20 per matched title keyword plus 30 for
an academic channel marker, returns the list sorted by that score
descending, and keeps at most 8 videos. -/
theorem educational_ranking :
    (∀ v : EduVideo, calculateEducationalScore v = specEducationalScore v) ∧
    (∀ (items : List SearchItem) (stats : List EduStatItem),
      ((getEducationalVideos items stats).videos).length ≤ 8 ∧
      ((getEducationalVideos items stats).videos).Pairwise scoreDesc) := by
  refine ⟨calculateEducationalScore_eq_spec, ?_⟩
  intro items stats
  simp only [getEducationalVideos]
  split
  · exact ⟨by simp, List.Pairwise.nil⟩
  · constructor
    · exact le_trans (Nat.le_of_eq (List.length_take _ _)) (min_le_left _ _)
    · exact (List.sorted_insertionSort scoreDesc _).sublist (List.take_sublist _ _)

/-! ### C4 -/

theorem collapseRunsAux_head_all (p : Char → Bool) (r : Char) :
    ∀ l : List Char, ((collapseRunsAux p r true l).head?.all (fun c => !p c)) = true := by
  intro l
  induction l with
  | nil => rfl
  | cons c cs ih =>
    by_cases hc : p c = true
    · simpa [collapseRunsAux, hc] using ih
    · simp [collapseRunsAux, hc]

theorem collapseRunsAux_chain (p : Char → Bool) (r : Char) :
    ∀ (l : List Char) (b : Bool),
      (collapseRunsAux p r b l).Chain' (fun a c => p a = false ∨ p c = false) := by
  intro l
  induction l with
  | nil => intro b; simp [collapseRunsAux]
  | cons c cs ih =>
    intro b
    by_cases hc : p c = true
    · cases b with
      | true => simpa [collapseRunsAux, hc] using ih true
      | false =>
        simp only [collapseRunsAux, hc, if_true, Bool.false_eq_true, if_false]
        rw [List.chain'_cons']
        refine ⟨?_, ih true⟩
        intro y hy
        right
        have hall := collapseRunsAux_head_all p r cs
        rw [Option.mem_def] at hy
        rw [hy, Option.all_some] at hall
        simpa using hall
    · have hc' : p c = false := by simpa using hc
      simp only [collapseRunsAux, hc', Bool.false_eq_true, if_false]
      rw [List.chain'_cons']
      exact ⟨fun y _ => Or.inl hc', ih false⟩

theorem collapseRunsAux_countP (p q : Char → Bool) (r : Char) (hqr : q r = false)
    (hpq : ∀ c, p c = true → q c = false) :
    ∀ (l : List Char) (b : Bool), (collapseRunsAux p r b l).countP q = l.countP q := by
  intro l
  induction l with
  | nil => intro b; rfl
  | cons c cs ih =>
    intro b
    by_cases hc : p c = true
    · cases b with
      | true =>
        simp only [collapseRunsAux, hc, if_true]
        rw [ih true, List.countP_cons, hpq c hc]
        simp
      | false =>
        simp only [collapseRunsAux, hc, if_true, Bool.false_eq_true, if_false]
        rw [List.countP_cons, ih true, List.countP_cons, hpq c hc, hqr]
    · have hc' : p c = false := by simpa using hc
      simp only [collapseRunsAux, hc', Bool.false_eq_true, if_false]
      rw [List.countP_cons, List.countP_cons, ih false]

theorem dropWhile_head_all (p : α → Bool) :
    ∀ l : List α, ((l.dropWhile p).head?.all (fun c => !p c)) = true := by
  intro l
  induction l with
  | nil => rfl
  | cons c cs ih =>
    by_cases hc : p c = true
    · simpa [List.dropWhile, hc] using ih
    · simp [List.dropWhile, hc]

theorem countP_dropWhile (p q : α → Bool) (hpq : ∀ c, p c = true → q c = false) :
    ∀ l : List α, (l.dropWhile p).countP q = l.countP q := by
  intro l
  induction l with
  | nil => rfl
  | cons c cs ih =>
    by_cases hc : p c = true
    · rw [List.dropWhile_cons_of_pos hc, ih, List.countP_cons, hpq c hc]
      simp
    · rw [List.dropWhile_cons_of_neg hc]

theorem getLast?_of_suffix {l₁ l₂ : List α} (h : l₁ <:+ l₂) (hne : l₁ ≠ []) :
    l₁.getLast? = l₂.getLast? := by
  obtain ⟨t, rfl⟩ := h
  rw [List.getLast?_append]
  cases hl : l₁.getLast? with
  | none => exact absurd (List.getLast?_eq_none_iff.mp hl) hne
  | some a => rfl

theorem chain_jsTrim {R : Char → Char → Prop} {l : List Char}
    (h : l.Chain' R) : (jsTrim l).Chain' R := by
  unfold jsTrim
  have h1 : (l.dropWhile jsWhitespace).Chain' R :=
    h.suffix (List.dropWhile_suffix _)
  exact List.chain'_reverse.mpr
    ((List.chain'_reverse.mpr h1).suffix (List.dropWhile_suffix _))

theorem jsTrim_getLast_all (l : List Char) :
    ((jsTrim l).getLast?.all (fun c => !jsWhitespace c)) = true := by
  unfold jsTrim
  rw [List.getLast?_reverse]
  exact dropWhile_head_all _ _

theorem jsTrim_head_all (l : List Char) :
    ((jsTrim l).head?.all (fun c => !jsWhitespace c)) = true := by
  unfold jsTrim
  rw [List.head?_reverse]
  cases hX : (l.dropWhile jsWhitespace).reverse.dropWhile jsWhitespace with
  | nil => simp [hX]
  | cons x xs =>
    rw [← hX,
      getLast?_of_suffix (List.dropWhile_suffix _) (by rw [hX]; exact List.cons_ne_nil x xs),
      List.getLast?_reverse]
    exact dropWhile_head_all _ _

theorem countP_jsTrim (q : Char → Bool)
    (hq : ∀ c, jsWhitespace c = true → q c = false) (l : List Char) :
    (jsTrim l).countP q = l.countP q := by
  unfold jsTrim
  rw [List.countP_reverse, countP_dropWhile _ _ hq, List.countP_reverse,
    countP_dropWhile _ _ hq]

theorem processExtractedText_normalized (raw : String) :
    wsNormalized (processExtractedText raw) := by
  unfold processExtractedText
  split
  · exact ⟨List.chain'_nil, rfl, rfl⟩
  · refine ⟨?_, ?_, ?_⟩
    · exact chain_jsTrim (collapseRunsAux_chain jsWhitespace ' ' _ false)
    · exact jsTrim_head_all _
    · exact jsTrim_getLast_all _

theorem processExtractedText_ne_empty (raw : String)
    (h : (raw.toList.any (fun c => !jsWhitespace c)) = true) :
    processExtractedText raw ≠ "" := by
  unfold processExtractedText
  have hq : ∀ c, jsWhitespace c = true → (!jsWhitespace c) = false := by
    intro c hc
    rw [hc]
    rfl
  split
  · next hraw =>
    rw [hraw] at h
    simp at h
  · intro hcontra
    have hlist : jsTrim (collapseRuns jsWhitespace ' '
        (collapseRuns (fun c => c == '\n') '\n' raw.toList)) = [] :=
      congrArg String.toList hcontra
    have hcount : (jsTrim (collapseRuns jsWhitespace ' '
        (collapseRuns (fun c => c == '\n') '\n' raw.toList))).countP
          (fun c => !jsWhitespace c) =
        raw.toList.countP (fun c => !jsWhitespace c) := by
      rw [countP_jsTrim _ hq]
      unfold collapseRuns
      rw [collapseRunsAux_countP jsWhitespace (fun c => !jsWhitespace c) ' ' (by decide) hq]
      rw [collapseRunsAux_countP (fun c => c == '\n') (fun c => !jsWhitespace c) '\n'
        (by decide) ?_]
      intro c hc
      have : c = '\n' := by simpa using hc
      subst this
      decide
    have hpos : 0 < raw.toList.countP (fun c => !jsWhitespace c) :=
      List.countP_pos_iff.mpr (List.any_eq_true.mp h)
    rw [hlist] at hcount
    rw [List.countP_nil] at hcount
    omega

/-- C4 (amended): on the plain text-detection path, a configured provider
returning detections yields `extractedText = processExtractedText`, which
is whitespace-normalized (no two consecutive whitespace characters, hence
no double spaces or double line breaks, and trimmed), and non-empty
whenever the detected description contains a non-whitespace character.
The structured document-text path does not guarantee this. -/
theorem ocr_plain_path_normalized (env : VisionEnv) (d : Detection)
    (rest : List Detection) (imagePath : String) (hc : env.isConfigured = true) :
    (extractTextFromImage env (.ok (d :: rest)) imagePath).success = true ∧
    (extractTextFromImage env (.ok (d :: rest)) imagePath).extractedText =
      some (processExtractedText d.description) ∧
    wsNormalized (processExtractedText d.description) ∧
    ((d.description.toList.any fun c => !jsWhitespace c) = true →
      processExtractedText d.description ≠ "") := by
  refine ⟨?_, ?_, processExtractedText_normalized d.description,
    processExtractedText_ne_empty d.description⟩
  · simp [extractTextFromImage, hc]
  · simp [extractTextFromImage, hc]

/-- Witness for the amended C4: a messy detection is normalized to
non-empty single-spaced trimmed text. -/
theorem ocr_plain_path_normalized_witness :
    (extractTextFromImage { isConfigured := true }
      (.ok [{ description := "  Photosynthesis  converts\n\nlight. ", confidence := none }])
      "uploads/leaf.png").success = true ∧
    (extractTextFromImage { isConfigured := true }
      (.ok [{ description := "  Photosynthesis  converts\n\nlight. ", confidence := none }])
      "uploads/leaf.png").extractedText =
      some (processExtractedText "  Photosynthesis  converts\n\nlight. ") ∧
    wsNormalized (processExtractedText "  Photosynthesis  converts\n\nlight. ") ∧
    ((("  Photosynthesis  converts\n\nlight. ").toList.any
        fun c => !jsWhitespace c) = true →
      processExtractedText "  Photosynthesis  converts\n\nlight. " ≠ "") :=
  ocr_plain_path_normalized { isConfigured := true }
    { description := "  Photosynthesis  converts\n\nlight. ", confidence := none }
    [] "uploads/leaf.png" rfl

/-- Counterexample to C4 as stated: a configured structured-path run over
an annotation with two paragraphs produces `structuredText` that contains
two consecutive line breaks — the paragraph join inserts a blank line and
only the ends are trimmed. -/
theorem structured_path_double_newline :
    (detectDocumentStructure { isConfigured := true } (.ok (some annoTwoParagraphs))
      (.ok []) "scan.png").success = true ∧
    (detectDocumentStructure { isConfigured := true } (.ok (some annoTwoParagraphs))
      (.ok []) "scan.png").structuredText = some "a\n\nb" ∧
    containsDoubleNewline "a\n\nb" = true := by
  refine ⟨by decide, by decide, by decide⟩
